import Mathlib

/-!
Shallow embedding of the `smhi` Go library (forecast client for the SMHI
meteorological API) and proofs about its specification claims.

Modelling conventions:
* Go `float64` values are modelled as `ℚ`. The accessors only copy values
  (`p.Values[0]`) or truncate them toward zero (`int(...)`); no floating-point
  arithmetic occurs, so exact rationals are a faithful carrier.
* A Go slice index that can panic (`p.Values[0]` on an empty slice) is
  modelled by `Option`: `none` is the panic.
* `time.Time` is modelled by the RFC3339 text it (un)marshals to/from.
* `encoding/json` is modelled at the JSON-tree level: `json.Marshal` of the
  concrete struct types becomes an encoder into a `Json` inductive, and
  `json.Unmarshal` becomes a decoder, with Go's rules (exported field names
  as keys, case-insensitive key matching, missing/null fields keep the zero
  value).
-/

namespace Smhi

/-- Go struct `WeatherSymbol` (smhi.go): value, meaning, glyph, glyph width. -/
structure WeatherSymbol where
  Value : Int
  Meaning : String
  Unicode : String
  UnicodeWidth : Int
deriving Repr, DecidableEq

instance : Inhabited WeatherSymbol := ⟨⟨0, "", "", 0⟩⟩

/-- The Go zero value `WeatherSymbol{}`. -/
def zeroWeatherSymbol : WeatherSymbol := ⟨0, "", "", 0⟩

/-- Go global `var WeatherSymbols = []WeatherSymbol{...}` (smhi.go). -/
def WeatherSymbols : List WeatherSymbol := [
  ⟨0, "No weather", "?", 1⟩,
  ⟨1, "Clear sky", "☀", 1⟩,
  ⟨2, "Nearly clear sky", "⛅", 2⟩,
  ⟨3, "Variable cloudiness", "⛅", 2⟩,
  ⟨4, "Halfclear sky", "⛅", 2⟩,
  ⟨5, "Cloudy sky", "☁", 1⟩,
  ⟨6, "Overcast", "☁", 1⟩,
  ⟨7, "Fog", "🌫", 1⟩,
  ⟨8, "Light rain showers", "🌦", 1⟩,
  ⟨9, "Moderate rain showers", "🌦", 1⟩,
  ⟨10, "Heavy rain showers", "🌧", 1⟩,
  ⟨11, "Thunderstorm", "⚡", 2⟩,
  ⟨12, "Light sleet showers", "🌨", 1⟩,
  ⟨13, "Moderate sleet showers", "🌨", 1⟩,
  ⟨14, "Heavy sleet showers", "🌨", 1⟩,
  ⟨15, "Light snow showers", "🌨", 1⟩,
  ⟨16, "Moderate snow showers", "🌨", 1⟩,
  ⟨17, "Heavy snow showers", "🌨", 1⟩,
  ⟨18, "Light rain", "🌧", 1⟩,
  ⟨19, "Moderate rain", "🌧", 1⟩,
  ⟨20, "Heavy rain", "🌧", 1⟩,
  ⟨21, "Thunder", "⚡", 2⟩,
  ⟨22, "Light sleet", "🌨", 1⟩,
  ⟨23, "Moderate sleet", "🌨", 1⟩,
  ⟨24, "Heavy sleet", "🌨", 1⟩,
  ⟨25, "Light snowfall", "🌨", 1⟩,
  ⟨26, "Moderate snowfall", "🌨", 1⟩,
  ⟨27, "Heavy snowfall", "🌨", 1⟩]

/-- Go method `(s WeatherSymbol) FixedWidth() string` (smhi.go): pad a
single-width glyph with an ordinary space, otherwise append U+200B. -/
def WeatherSymbol.FixedWidth (s : WeatherSymbol) : String :=
  if s.UnicodeWidth = 1 then s.Unicode ++ " " else s.Unicode ++ "​"

/-- Go struct `Parameter` (smhi.go). `Values` carries Go `[]float64`. -/
structure Parameter where
  Name : String
  LevelType : String
  Level : Int
  Unit : String
  Values : List ℚ
deriving Repr, DecidableEq

/-- Go `time.Time`, modelled by its RFC3339 JSON text. -/
structure GoTime where
  rfc3339 : String
deriving Repr, DecidableEq

/-- Go struct `TimeSeriesItem` (smhi.go). -/
structure TimeSeriesItem where
  ValidTime : GoTime
  Parameters : List Parameter
deriving Repr, DecidableEq

/-- Go `type Point [2]float64` (smhi.go). -/
abbrev Point : Type := ℚ × ℚ

/-- Go struct `Geometry` (smhi.go); the field is named `Type` in Go. -/
structure Geometry where
  Type' : String
  Coordinates : List Point
deriving Repr, DecidableEq

/-- Go struct `Forecast` (smhi.go). -/
structure Forecast where
  ApprovedTime : GoTime
  ReferenceTime : GoTime
  Geometry : Geometry
  TimeSeries : List TimeSeriesItem
deriving Repr, DecidableEq

/-- Go conversion `int(v)` on a float64: truncation toward zero. -/
def floatToInt (q : ℚ) : Int := if 0 ≤ q then ⌊q⌋ else ⌈q⌉

/-- Go method `(i TimeSeriesItem) Float64(name string) float64` (smhi.go):
first parameter whose name matches wins; `p.Values[0]` is read (`none`
models the panic on an empty slice); no match yields 0. -/
def TimeSeriesItem.Float64? (i : TimeSeriesItem) (name : String) : Option ℚ :=
  match i.Parameters.find? (fun p => p.Name == name) with
  | some p => p.Values.head?
  | none => some 0

/-- Go method `(i TimeSeriesItem) Int(name string) int` (smhi.go): its own
scan of the parameter list, converting `p.Values[0]` via `int(...)`. -/
def TimeSeriesItem.Int? (i : TimeSeriesItem) (name : String) : Option Int :=
  match i.Parameters.find? (fun p => p.Name == name) with
  | some p => p.Values.head?.map (fun v => if 0 ≤ v then ⌊v⌋ else ⌈v⌉)
  | none => some 0

/-- Go method `Temperature()` (smhi.go). -/
def TimeSeriesItem.Temperature? (i : TimeSeriesItem) : Option ℚ :=
  i.Float64? "t"

/-- Go method `MaxPrecipitation()` (smhi.go). -/
def TimeSeriesItem.MaxPrecipitation? (i : TimeSeriesItem) : Option ℚ :=
  i.Float64? "pmax"

/-- Go method `WindSpeed()` (smhi.go). -/
def TimeSeriesItem.WindSpeed? (i : TimeSeriesItem) : Option ℚ :=
  i.Float64? "ws"

/-- Go method `(i TimeSeriesItem) WeatherSymbol() WeatherSymbol` (smhi.go):
look up `Int("Wsymb2")` in the table when `1 <= idx < len(WeatherSymbols)`,
otherwise return the zero value. -/
def TimeSeriesItem.WeatherSymbol? (i : TimeSeriesItem) : Option WeatherSymbol :=
  (i.Int? "Wsymb2").map (fun idx =>
    if 1 ≤ idx ∧ idx < (WeatherSymbols.length : Int) then
      WeatherSymbols.getD idx.toNat default
    else zeroWeatherSymbol)

/-- C1: the weather-symbol lookup on the item's integer `Wsymb2` code `c`
returns the table entry at index `c` when `1 ≤ c ≤ 27` and the zero-value
`WeatherSymbol` (value 0, empty meaning and glyph, width 0) otherwise. -/
theorem weatherSymbol_table_policy (i : TimeSeriesItem) (c : Int)
    (h : i.Int? "Wsymb2" = some c) :
    i.WeatherSymbol? =
      some (if 1 ≤ c ∧ c ≤ 27 then WeatherSymbols.getD c.toNat default
            else ⟨0, "", "", 0⟩) := by
  have hlen : (WeatherSymbols.length : Int) = 28 := by decide
  have hiff : (1 ≤ c ∧ c < (WeatherSymbols.length : Int)) ↔ (1 ≤ c ∧ c ≤ 27) := by
    rw [hlen]; omega
  simp only [TimeSeriesItem.WeatherSymbol?, h, Option.map_some']
  by_cases hc : 1 ≤ c ∧ c ≤ 27
  · rw [if_pos (hiff.mpr hc), if_pos hc]
  · rw [if_neg (fun hx => hc (hiff.mp hx)), if_neg hc]
    rfl

/-- Witness for C1 at a concrete item whose `Wsymb2` value is 19. -/
theorem weatherSymbol_table_policy_witness :
    (TimeSeriesItem.mk ⟨"2021-06-12T10:00:00Z"⟩
      [⟨"Wsymb2", "hl", 0, "category", [(19 : ℚ)]⟩]).WeatherSymbol? =
      some (if (1 : Int) ≤ 19 ∧ (19 : Int) ≤ 27 then
              WeatherSymbols.getD (Int.toNat 19) default
            else ⟨0, "", "", 0⟩) :=
  weatherSymbol_table_policy _ 19 (by decide)

/-- The scan of the parameter list finds the first parameter named `X`. -/
lemma find?_name_first (pre : List Parameter) (p : Parameter) (post : List Parameter)
    (X : String) (hname : p.Name = X) (hpre : ∀ q ∈ pre, q.Name ≠ X) :
    (pre ++ p :: post).find? (fun q => q.Name == X) = some p := by
  induction pre with
  | nil => simp [List.find?_cons, hname]
  | cons a as ih =>
    have ha : (a.Name == X) = false := by
      simpa using hpre a (List.mem_cons_self a as)
    rw [List.cons_append, List.find?_cons, ha]
    exact ih (fun q hq => hpre q (List.mem_cons_of_mem a hq))

/-- C2: `Float64(X)` returns 0 when no parameter is named `X`; when the
parameter list splits as `pre ++ p :: post` with `p` the first parameter
named `X` and `p.Values = v :: rest`, it returns `v`, regardless of the
trailing values `rest` and of any later parameters (in `post`) named `X`. -/
theorem float64_first_match (i : TimeSeriesItem) (X : String) :
    ((∀ p ∈ i.Parameters, p.Name ≠ X) → i.Float64? X = some 0)
    ∧ (∀ pre p post, i.Parameters = pre ++ p :: post → p.Name = X →
        (∀ q ∈ pre, q.Name ≠ X) →
        ∀ v rest, p.Values = v :: rest → i.Float64? X = some v) := by
  constructor
  · intro hnone
    have hfind : i.Parameters.find? (fun p => p.Name == X) = none := by
      rw [List.find?_eq_none]
      intro p hp
      simpa using hnone p hp
    simp [TimeSeriesItem.Float64?, hfind]
  · intro pre p post hsplit hname hpre v rest hvals
    have hfind : i.Parameters.find? (fun q => q.Name == X) = some p := by
      rw [hsplit]; exact find?_name_first pre p post X hname hpre
    simp [TimeSeriesItem.Float64?, hfind, hvals]

/-- Witness for C2 at a concrete item: a missing name yields 0, and the
first of two parameters named "t" wins with its first value. -/
theorem float64_first_match_witness :
    (TimeSeriesItem.mk ⟨"2021-06-12T10:00:00Z"⟩
      [⟨"ws", "hl", 10, "m/s", [(5 : ℚ)]⟩,
       ⟨"t", "hl", 2, "C", [(18 : ℚ), (99 : ℚ)]⟩,
       ⟨"t", "hl", 2, "C", [(7 : ℚ)]⟩]).Float64? "t" = some 18 :=
  (float64_first_match _ "t").2
    [⟨"ws", "hl", 10, "m/s", [(5 : ℚ)]⟩]
    ⟨"t", "hl", 2, "C", [(18 : ℚ), (99 : ℚ)]⟩
    [⟨"t", "hl", 2, "C", [(7 : ℚ)]⟩]
    rfl rfl (by decide) 18 [(99 : ℚ)] rfl

/-- C3: when every parameter of an item has a non-empty values sequence,
`Float64`, `Int` and the weather-symbol lookup are total: the panic branch
(reading `Values[0]` out of bounds, modelled by `none`) is unreachable. -/
theorem accessors_total_of_nonempty_values (i : TimeSeriesItem)
    (h : ∀ p ∈ i.Parameters, p.Values ≠ []) :
    (∀ name, (i.Float64? name).isSome ∧ (i.Int? name).isSome)
    ∧ (i.WeatherSymbol?).isSome := by
  have hf : ∀ name, (i.Float64? name).isSome := by
    intro name
    unfold TimeSeriesItem.Float64?
    cases hfind : i.Parameters.find? (fun p => p.Name == name) with
    | none => rfl
    | some p =>
      have hp : p ∈ i.Parameters := List.mem_of_find?_eq_some hfind
      cases hv : p.Values with
      | nil => exact absurd hv (h p hp)
      | cons v rest => simp [hv]
  have hi : ∀ name, (i.Int? name).isSome := by
    intro name
    unfold TimeSeriesItem.Int?
    cases hfind : i.Parameters.find? (fun p => p.Name == name) with
    | none => rfl
    | some p =>
      have hp : p ∈ i.Parameters := List.mem_of_find?_eq_some hfind
      cases hv : p.Values with
      | nil => exact absurd hv (h p hp)
      | cons v rest => simp [hv]
  refine ⟨fun name => ⟨hf name, hi name⟩, ?_⟩
  unfold TimeSeriesItem.WeatherSymbol?
  have := hi "Wsymb2"
  cases hint : i.Int? "Wsymb2" with
  | none => rw [hint] at this; exact absurd this (by simp)
  | some c => simp [hint]

/-- Witness for C3 at a concrete item with non-empty value lists. -/
theorem accessors_total_of_nonempty_values_witness :
    ((TimeSeriesItem.mk ⟨"2021-06-12T10:00:00Z"⟩
      [⟨"t", "hl", 2, "C", [(18 : ℚ)]⟩]).Float64? "t").isSome
    ∧ ((TimeSeriesItem.mk ⟨"2021-06-12T10:00:00Z"⟩
      [⟨"t", "hl", 2, "C", [(18 : ℚ)]⟩]).WeatherSymbol?).isSome :=
  ⟨((accessors_total_of_nonempty_values _ (by decide)).1 "t").1,
   (accessors_total_of_nonempty_values _ (by decide)).2⟩

/-- C9: `Int(X)` performs the same first-match lookup as `Float64(X)` and
returns its result converted by truncation toward zero (`floatToInt`, which
floors non-negative values and ceils negative ones); it is 0 when no
parameter named `X` exists. -/
theorem int_truncates_float64 (i : TimeSeriesItem) (X : String) :
    i.Int? X = (i.Float64? X).map floatToInt
    ∧ ((∀ p ∈ i.Parameters, p.Name ≠ X) → i.Int? X = some 0)
    ∧ (∀ q : ℚ, floatToInt q = if 0 ≤ q then ⌊q⌋ else ⌈q⌉) := by
  refine ⟨?_, ?_, fun q => rfl⟩
  · unfold TimeSeriesItem.Int? TimeSeriesItem.Float64?
    cases hfind : i.Parameters.find? (fun p => p.Name == X) with
    | none => rfl
    | some p =>
      cases p.Values with
      | nil => rfl
      | cons v rest => rfl
  · intro hnone
    have hfind : i.Parameters.find? (fun p => p.Name == X) = none := by
      rw [List.find?_eq_none]
      intro p hp
      simpa using hnone p hp
    simp [TimeSeriesItem.Int?, hfind]

/-- Witness for C9: a negative value -3.7 truncates to -3, and agreement
with the Float64 lookup holds at that item. -/
theorem int_truncates_float64_witness :
    (TimeSeriesItem.mk ⟨"2021-06-12T10:00:00Z"⟩
      [⟨"t", "hl", 2, "C", [(-37 : ℚ)/10]⟩]).Int? "t" =
      ((TimeSeriesItem.mk ⟨"2021-06-12T10:00:00Z"⟩
        [⟨"t", "hl", 2, "C", [(-37 : ℚ)/10]⟩]).Float64? "t").map floatToInt
    ∧ (TimeSeriesItem.mk ⟨"2021-06-12T10:00:00Z"⟩
      [⟨"zz", "hl", 2, "C", [(1 : ℚ)]⟩]).Int? "t" = some 0 :=
  ⟨(int_truncates_float64 _ "t").1,
   (int_truncates_float64 (TimeSeriesItem.mk ⟨"2021-06-12T10:00:00Z"⟩
      [⟨"zz", "hl", 2, "C", [(1 : ℚ)]⟩]) "t").2.1 (by decide)⟩

/-- C6: for every table entry, `FixedWidth` is the glyph followed by an
ordinary space when the width is 1, and the glyph followed by the
zero-width space U+200B when the width is 2. -/
theorem fixedWidth_table_rule :
    ∀ s ∈ WeatherSymbols,
      (s.UnicodeWidth = 1 → s.FixedWidth = s.Unicode ++ " ")
      ∧ (s.UnicodeWidth = 2 → s.FixedWidth = s.Unicode ++ "​") := by
  intro s hs
  constructor
  · intro h1
    simp [WeatherSymbol.FixedWidth, h1]
  · intro h2
    have : ¬ s.UnicodeWidth = 1 := by omega
    simp [WeatherSymbol.FixedWidth, this]

/-- Witness for C6 at table entries 1 (width 1) and 2 (width 2). -/
theorem fixedWidth_table_rule_witness :
    (WeatherSymbols.getD 1 default).FixedWidth =
      (WeatherSymbols.getD 1 default).Unicode ++ " "
    ∧ (WeatherSymbols.getD 2 default).FixedWidth =
      (WeatherSymbols.getD 2 default).Unicode ++ "​" :=
  ⟨(fixedWidth_table_rule _ (by decide)).1 (by decide),
   (fixedWidth_table_rule _ (by decide)).2 (by decide)⟩

/-- C8: the weather-symbol table is dense and ordered: length 28, entry `i`
has value `i`, every display width is 1 or 2, and index 0 is the reserved
"No weather" entry. -/
theorem weatherSymbols_dense_ordered :
    WeatherSymbols.length = 28
    ∧ (∀ i : Fin 28, (WeatherSymbols.getD i default).Value = i)
    ∧ (∀ s ∈ WeatherSymbols, s.UnicodeWidth = 1 ∨ s.UnicodeWidth = 2)
    ∧ WeatherSymbols.getD 0 default = ⟨0, "No weather", "?", 1⟩ := by
  refine ⟨by decide, by decide, by decide, by decide⟩

/-- Witness for C8 at index 27 and at a concrete member. -/
theorem weatherSymbols_dense_ordered_witness :
    (WeatherSymbols.getD 27 default).Value = 27
    ∧ ((WeatherSymbols.getD 27 default).UnicodeWidth = 1
       ∨ (WeatherSymbols.getD 27 default).UnicodeWidth = 2) :=
  ⟨weatherSymbols_dense_ordered.2.1 ⟨27, by decide⟩,
   weatherSymbols_dense_ordered.2.2.1 _ (by decide)⟩

/-- C10: when the item's `Wsymb2` code is outside `[1, 27]` (including a
missing parameter, which yields code 0), `FixedWidth` of the returned
zero-value symbol is exactly the zero-width space U+200B — no glyph, no
ordinary space — while no in-table entry's `FixedWidth` is that string. -/
theorem unknown_symbol_fixedWidth_zwsp (i : TimeSeriesItem) (c : Int)
    (h1 : i.Int? "Wsymb2" = some c) (h2 : ¬(1 ≤ c ∧ c ≤ 27)) :
    (i.WeatherSymbol?).map WeatherSymbol.FixedWidth = some "​"
    ∧ (∀ s ∈ WeatherSymbols, s.FixedWidth ≠ "​") := by
  constructor
  · have hlen : (WeatherSymbols.length : Int) = 28 := by decide
    have hguard : ¬(1 ≤ c ∧ c < (WeatherSymbols.length : Int)) := by
      rw [hlen]; omega
    simp only [TimeSeriesItem.WeatherSymbol?, h1, Option.map_some']
    rw [if_neg hguard]
    rfl
  · decide

/-- Witness for C10: an item with no `Wsymb2` parameter at all. -/
theorem unknown_symbol_fixedWidth_zwsp_witness :
    ((TimeSeriesItem.mk ⟨"2021-06-12T10:00:00Z"⟩
      [⟨"t", "hl", 2, "C", [(18 : ℚ)]⟩]).WeatherSymbol?).map
        WeatherSymbol.FixedWidth = some "​" :=
  (unknown_symbol_fixedWidth_zwsp _ 0 (by decide) (by decide)).1

/-- C4: for an item whose first parameters named t, pmax, ws, Wsymb2 carry
head values 18.6, 2.6, 5.6, 19, the accessors return those values, the
weather symbol is the table entry with value 19 and meaning "Moderate rain",
and its `FixedWidth` is its glyph followed by a single space. -/
theorem fixture_item_accessors (item : TimeSeriesItem)
    (pt pp pw ps : Parameter)
    (ht : item.Parameters.find? (fun p => p.Name == "t") = some pt)
    (htv : pt.Values.head? = some (18.6 : ℚ))
    (hp : item.Parameters.find? (fun p => p.Name == "pmax") = some pp)
    (hpv : pp.Values.head? = some (2.6 : ℚ))
    (hw : item.Parameters.find? (fun p => p.Name == "ws") = some pw)
    (hwv : pw.Values.head? = some (5.6 : ℚ))
    (hs : item.Parameters.find? (fun p => p.Name == "Wsymb2") = some ps)
    (hsv : ps.Values.head? = some (19 : ℚ)) :
    item.Temperature? = some (18.6 : ℚ)
    ∧ item.MaxPrecipitation? = some (2.6 : ℚ)
    ∧ item.WindSpeed? = some (5.6 : ℚ)
    ∧ item.WeatherSymbol? = some (WeatherSymbols.getD 19 default)
    ∧ (WeatherSymbols.getD 19 default).Value = 19
    ∧ (WeatherSymbols.getD 19 default).Meaning = "Moderate rain"
    ∧ (WeatherSymbols.getD 19 default).FixedWidth =
        (WeatherSymbols.getD 19 default).Unicode ++ " " := by
  have hint : item.Int? "Wsymb2" = some 19 := by
    simp only [TimeSeriesItem.Int?, hs, hsv, Option.map_some']
    rw [if_pos (by norm_num)]
    decide
  refine ⟨?_, ?_, ?_, ?_, rfl, rfl, rfl⟩
  · simp [TimeSeriesItem.Temperature?, TimeSeriesItem.Float64?, ht, htv]
  · simp [TimeSeriesItem.MaxPrecipitation?, TimeSeriesItem.Float64?, hp, hpv]
  · simp [TimeSeriesItem.WindSpeed?, TimeSeriesItem.Float64?, hw, hwv]
  · simp only [TimeSeriesItem.WeatherSymbol?, hint, Option.map_some']
    rw [if_pos (by decide)]
    rfl

/-- Witness for C4: the fixture item of the repository's test, with
parameters t=[18.6], pmax=[2.6], ws=[5.6], Wsymb2=[19]. -/
theorem fixture_item_accessors_witness :
    (TimeSeriesItem.mk ⟨"2021-06-12T20:00:00Z"⟩
      [⟨"t", "hl", 2, "C", [(18.6 : ℚ)]⟩,
       ⟨"pmax", "hl", 0, "mm/h", [(2.6 : ℚ)]⟩,
       ⟨"ws", "hl", 10, "m/s", [(5.6 : ℚ)]⟩,
       ⟨"Wsymb2", "hl", 0, "category", [(19 : ℚ)]⟩]).Temperature? =
        some (18.6 : ℚ)
    ∧ (TimeSeriesItem.mk ⟨"2021-06-12T20:00:00Z"⟩
      [⟨"t", "hl", 2, "C", [(18.6 : ℚ)]⟩,
       ⟨"pmax", "hl", 0, "mm/h", [(2.6 : ℚ)]⟩,
       ⟨"ws", "hl", 10, "m/s", [(5.6 : ℚ)]⟩,
       ⟨"Wsymb2", "hl", 0, "category", [(19 : ℚ)]⟩]).WeatherSymbol? =
        some (WeatherSymbols.getD 19 default) := by
  have h := fixture_item_accessors
    (TimeSeriesItem.mk ⟨"2021-06-12T20:00:00Z"⟩
      [⟨"t", "hl", 2, "C", [(18.6 : ℚ)]⟩,
       ⟨"pmax", "hl", 0, "mm/h", [(2.6 : ℚ)]⟩,
       ⟨"ws", "hl", 10, "m/s", [(5.6 : ℚ)]⟩,
       ⟨"Wsymb2", "hl", 0, "category", [(19 : ℚ)]⟩])
    ⟨"t", "hl", 2, "C", [(18.6 : ℚ)]⟩
    ⟨"pmax", "hl", 0, "mm/h", [(2.6 : ℚ)]⟩
    ⟨"ws", "hl", 10, "m/s", [(5.6 : ℚ)]⟩
    ⟨"Wsymb2", "hl", 0, "category", [(19 : ℚ)]⟩
    rfl rfl rfl rfl rfl rfl rfl rfl
  exact ⟨h.1, h.2.2.2.1⟩

/-- The error taxonomy of `GetForecast` after the transport succeeded. -/
inductive GoError where
  | httpStatus (msg : String)
  | parseError (msg : String)
deriving Repr, DecidableEq

/-- A received HTTP response: status code and already-read body. -/
structure HttpResponse where
  StatusCode : Nat
  Body : String
deriving Repr, DecidableEq

/-- Go `GetForecast` (smhi.go) after the GET and body read succeeded: check
`resp.StatusCode != http.StatusOK` first (returning the body inside the
error text), only then unmarshal the body into a `Forecast`. The unmarshal
step is a parameter so that its non-use on the error path is visible. -/
def GetForecast (resp : HttpResponse)
    (unmarshal : String → Except String Forecast) : Except GoError Forecast :=
  if resp.StatusCode ≠ 200 then
    Except.error (GoError.httpStatus ("status is not ok: " ++ resp.Body))
  else
    match unmarshal resp.Body with
    | Except.ok f => Except.ok f
    | Except.error e => Except.error (GoError.parseError e)

/-- C5: on a non-OK status, `GetForecast` returns an HTTP-status error whose
text contains the body, returns no `Forecast`, and never consults the
parser (the result is the same for every `unmarshal` function). -/
theorem getForecast_non_ok_status (resp : HttpResponse)
    (unmarshal : String → Except String Forecast)
    (h : resp.StatusCode ≠ 200) :
    GetForecast resp unmarshal =
      Except.error (GoError.httpStatus ("status is not ok: " ++ resp.Body))
    ∧ (∀ f, GetForecast resp unmarshal ≠ Except.ok f)
    ∧ (∃ pre suf, "status is not ok: " ++ resp.Body = pre ++ resp.Body ++ suf) := by
  have hmain : GetForecast resp unmarshal =
      Except.error (GoError.httpStatus ("status is not ok: " ++ resp.Body)) := by
    simp [GetForecast, h]
  refine ⟨hmain, ?_, "status is not ok: ", "", by simp⟩
  intro f hf
  rw [hmain] at hf
  exact Except.noConfusion hf

/-- Witness for C5: HTTP 503 with body "service unavailable", with a parser
that would reject everything. -/
theorem getForecast_non_ok_status_witness :
    GetForecast ⟨503, "service unavailable"⟩ (fun _ => Except.error "boom") =
      Except.error (GoError.httpStatus ("status is not ok: " ++ "service unavailable")) :=
  (getForecast_non_ok_status ⟨503, "service unavailable"⟩
    (fun _ => Except.error "boom") (by decide)).1

/-- JSON values: the target of `json.Marshal` and source of `json.Unmarshal`. -/
inductive Json where
  | null : Json
  | bool : Bool → Json
  | num : ℚ → Json
  | str : String → Json
  | arr : List Json → Json
  | obj : List (String × Json) → Json

/-- Go `json.Unmarshal` field matching: an exact key match is preferred,
otherwise the first case-insensitive match is taken. -/
def lookupField (fields : List (String × Json)) (key : String) : Option Json :=
  match fields.find? (fun kv => kv.fst == key) with
  | some kv => some kv.snd
  | none => (fields.find? (fun kv => kv.fst.toLower == key.toLower)).map Prod.snd

/-- Decode one struct field: a missing key or JSON null keeps the Go zero
value `dflt`; otherwise the field decoder runs. -/
def decodeField {α : Type} (fields : List (String × Json)) (key : String)
    (dflt : α) (dec : Json → Except String α) : Except String α :=
  match lookupField fields key with
  | none => Except.ok dflt
  | some Json.null => Except.ok dflt
  | some j => dec j

/-- Unmarshal a JSON value into a Go string. -/
def jstr : Json → Except String String
  | Json.str s => Except.ok s
  | _ => Except.error "cannot unmarshal into string"

/-- Unmarshal a JSON value into a Go float64 (null keeps the zero value). -/
def jnumD : Json → Except String ℚ
  | Json.null => Except.ok 0
  | Json.num q => Except.ok q
  | _ => Except.error "cannot unmarshal into float64"

/-- Unmarshal a JSON value into a Go int: the number must be integral. -/
def jint : Json → Except String Int
  | Json.num q =>
      if q.den = 1 then Except.ok q.num
      else Except.error "cannot unmarshal into int"
  | _ => Except.error "cannot unmarshal into int"

/-- Unmarshal a JSON value into the element list of a slice. -/
def jarr : Json → Except String (List Json)
  | Json.arr xs => Except.ok xs
  | _ => Except.error "cannot unmarshal into slice"

/-- Unmarshal a JSON value into a Go `time.Time` (RFC3339 text model). -/
def decodeTime : Json → Except String GoTime
  | Json.str s => Except.ok ⟨s⟩
  | _ => Except.error "cannot unmarshal into time.Time"

/-- Unmarshal every element of a JSON array. -/
def decodeList {α : Type} (dec : Json → Except String α) :
    List Json → Except String (List α)
  | [] => Except.ok []
  | j :: rest => do
      let v ← dec j
      let vs ← decodeList dec rest
      Except.ok (v :: vs)

/-- `json.Marshal` of a `time.Time`: its RFC3339 text. -/
def encodeTime (t : GoTime) : Json := Json.str t.rfc3339

/-- `json.Marshal` of a `Point` (`[2]float64`). -/
def encodePoint (p : Point) : Json := Json.arr [Json.num p.1, Json.num p.2]

/-- `json.Marshal` of a `Geometry` (keys are the Go field names). -/
def encodeGeometry (g : Geometry) : Json :=
  Json.obj [("Type", Json.str g.Type'),
            ("Coordinates", Json.arr (g.Coordinates.map encodePoint))]

/-- `json.Marshal` of a `Parameter`. -/
def encodeParameter (p : Parameter) : Json :=
  Json.obj [("Name", Json.str p.Name),
            ("LevelType", Json.str p.LevelType),
            ("Level", Json.num (p.Level : ℚ)),
            ("Unit", Json.str p.Unit),
            ("Values", Json.arr (p.Values.map Json.num))]

/-- `json.Marshal` of a `TimeSeriesItem`. -/
def encodeTimeSeriesItem (i : TimeSeriesItem) : Json :=
  Json.obj [("ValidTime", encodeTime i.ValidTime),
            ("Parameters", Json.arr (i.Parameters.map encodeParameter))]

/-- `json.Marshal` of a `Forecast`. -/
def encodeForecast (f : Forecast) : Json :=
  Json.obj [("ApprovedTime", encodeTime f.ApprovedTime),
            ("ReferenceTime", encodeTime f.ReferenceTime),
            ("Geometry", encodeGeometry f.Geometry),
            ("TimeSeries", Json.arr (f.TimeSeries.map encodeTimeSeriesItem))]

/-- `json.Unmarshal` into a `Point`: a shorter array keeps zero values and
extra elements are discarded, as Go does for fixed-size arrays. -/
def decodePoint : Json → Except String Point
  | Json.arr xs => do
      let x ← jnumD (xs.getD 0 Json.null)
      let y ← jnumD (xs.getD 1 Json.null)
      Except.ok (x, y)
  | _ => Except.error "cannot unmarshal into [2]float64"

/-- `json.Unmarshal` into a `Geometry`. -/
def decodeGeometry : Json → Except String Geometry
  | Json.obj fields => do
      let t ← decodeField fields "Type" "" jstr
      let cs ← decodeField fields "Coordinates" []
        (fun j => do decodeList decodePoint (← jarr j))
      Except.ok ⟨t, cs⟩
  | _ => Except.error "cannot unmarshal into Geometry"

/-- `json.Unmarshal` into a `Parameter`. -/
def decodeParameter : Json → Except String Parameter
  | Json.obj fields => do
      let name ← decodeField fields "Name" "" jstr
      let lt ← decodeField fields "LevelType" "" jstr
      let lvl ← decodeField fields "Level" 0 jint
      let u ← decodeField fields "Unit" "" jstr
      let vs ← decodeField fields "Values" []
        (fun j => do decodeList jnumD (← jarr j))
      Except.ok ⟨name, lt, lvl, u, vs⟩
  | _ => Except.error "cannot unmarshal into Parameter"

/-- `json.Unmarshal` into a `TimeSeriesItem`. -/
def decodeTimeSeriesItem : Json → Except String TimeSeriesItem
  | Json.obj fields => do
      let vt ← decodeField fields "ValidTime" ⟨""⟩ decodeTime
      let ps ← decodeField fields "Parameters" []
        (fun j => do decodeList decodeParameter (← jarr j))
      Except.ok ⟨vt, ps⟩
  | _ => Except.error "cannot unmarshal into TimeSeriesItem"

/-- `json.Unmarshal` into a `Forecast`. -/
def decodeForecast : Json → Except String Forecast
  | Json.obj fields => do
      let ta ← decodeField fields "ApprovedTime" ⟨""⟩ decodeTime
      let tr ← decodeField fields "ReferenceTime" ⟨""⟩ decodeTime
      let g ← decodeField fields "Geometry" ⟨"", []⟩ decodeGeometry
      let ts ← decodeField fields "TimeSeries" []
        (fun j => do decodeList decodeTimeSeriesItem (← jarr j))
      Except.ok ⟨ta, tr, g, ts⟩
  | _ => Except.error "cannot unmarshal into Forecast"

/-- Element-wise round trip for slices. -/
lemma decodeList_map {α : Type} (dec : Json → Except String α) (enc : α → Json)
    (h : ∀ a, dec (enc a) = Except.ok a) :
    ∀ l : List α, decodeList dec (l.map enc) = Except.ok l := by
  intro l
  induction l with
  | nil => rfl
  | cons a rest ih =>
    simp only [List.map_cons, decodeList, h a, ih]
    rfl

/-- Round trip for one `Point`. -/
lemma decodePoint_encodePoint (p : Point) : decodePoint (encodePoint p) = Except.ok p := rfl

/-- Round trip for one `Parameter`. -/
lemma decodeParameter_rt (p : Parameter) :
    decodeParameter (encodeParameter p) = Except.ok p := by
  have hv : decodeList jnumD (p.Values.map Json.num) = Except.ok p.Values :=
    decodeList_map jnumD Json.num (fun q => rfl) p.Values
  calc decodeParameter (encodeParameter p)
      = Except.bind (decodeList jnumD (p.Values.map Json.num))
          (fun vs => Except.ok ⟨p.Name, p.LevelType, p.Level, p.Unit, vs⟩) := rfl
    _ = Except.ok p := by rw [hv]; rfl

/-- Round trip for one `TimeSeriesItem`. -/
lemma decodeTimeSeriesItem_rt (i : TimeSeriesItem) :
    decodeTimeSeriesItem (encodeTimeSeriesItem i) = Except.ok i := by
  have hp : decodeList decodeParameter (i.Parameters.map encodeParameter) =
      Except.ok i.Parameters :=
    decodeList_map decodeParameter encodeParameter decodeParameter_rt i.Parameters
  calc decodeTimeSeriesItem (encodeTimeSeriesItem i)
      = Except.bind (decodeList decodeParameter (i.Parameters.map encodeParameter))
          (fun ps => Except.ok ⟨i.ValidTime, ps⟩) := rfl
    _ = Except.ok i := by rw [hp]; rfl

/-- Round trip for one `Geometry`. -/
lemma decodeGeometry_rt (g : Geometry) :
    decodeGeometry (encodeGeometry g) = Except.ok g := by
  have hc : decodeList decodePoint (g.Coordinates.map encodePoint) =
      Except.ok g.Coordinates :=
    decodeList_map decodePoint encodePoint decodePoint_encodePoint g.Coordinates
  calc decodeGeometry (encodeGeometry g)
      = Except.bind (decodeList decodePoint (g.Coordinates.map encodePoint))
          (fun cs => Except.ok ⟨g.Type', cs⟩) := rfl
    _ = Except.ok g := by rw [hc]; rfl

/-- C7: marshalling a `Forecast` to JSON and unmarshalling the result gives
back a field-for-field equal `Forecast`: timestamps, geometry type and
coordinates, and every item's valid time and parameter names, level
metadata, units and values. -/
theorem forecast_json_round_trip (f : Forecast) :
    decodeForecast (encodeForecast f) = Except.ok f := by
  have hg := decodeGeometry_rt f.Geometry
  have hts : decodeList decodeTimeSeriesItem (f.TimeSeries.map encodeTimeSeriesItem) =
      Except.ok f.TimeSeries :=
    decodeList_map decodeTimeSeriesItem encodeTimeSeriesItem decodeTimeSeriesItem_rt
      f.TimeSeries
  calc decodeForecast (encodeForecast f)
      = Except.bind (decodeGeometry (encodeGeometry f.Geometry))
          (fun g => Except.bind
            (decodeList decodeTimeSeriesItem (f.TimeSeries.map encodeTimeSeriesItem))
            (fun ts => Except.ok ⟨f.ApprovedTime, f.ReferenceTime, g, ts⟩)) := rfl
    _ = Except.ok f := by rw [hg, hts]; rfl

end Smhi
